import Mathlib

/-!
Verification of the sundrops-api authentication/authorization pipeline.

Shallow embedding of the JavaScript source:
* `src/middleware/apiKey.js`        → `extractApiKey`, `validateApiKey`
* `src/middleware/authenticate.js`  → `authenticate`
* `src/utils/jwt.js`                → `generateToken`, `verifyToken`
* `src/services/base.js`            → `baseGetById`, `baseUpdate`
* `src/services/users.js`           → `usersCreate`, `findByEmailOrUsernameAndTenant`,
                                      `bcryptCompare`, `updateLastLoginDb`, `updatePasswordDb`
* `src/routes/authentication.js`    → `registerHandler`, `loginHandler`, `meHandler`,
                                      `changePasswordHandler`, `verifyEmailHandler`

The database is a list of records; clocks, fresh ids, bcrypt salts and
verification tokens are explicit parameters (the nondeterministic inputs of the
JS code).  Timestamps are natural numbers.  JWT signing is modelled
symbolically: a signed token is a constructor carrying its claims, expiry and
the signing secret, and verification succeeds exactly when the secret matches
and the clock is before the expiry, mirroring `jsonwebtoken`'s behaviour.
-/

namespace Sundrops

/-- JavaScript truthiness for an optional string: `undefined`, `null` and the
empty string are falsy (`if (!x)` in the source). -/
def jsTruthyS (o : Option String) : Bool :=
  match o with
  | none => false
  | some s => !(s.isEmpty)

/-- JavaScript `a || b` on optional strings: returns `a` when truthy, else `b`. -/
def jsOrS (a b : Option String) : Option String :=
  if jsTruthyS a then a else b

/-- JavaScript `startsWith`, on the character lists of the strings. -/
def strStartsWith (s pre : String) : Bool :=
  List.isPrefixOf pre.data s.data

/-- Equality of `Except` values is decidable when both components are. -/
instance {ε α : Type} [DecidableEq ε] [DecidableEq α] : DecidableEq (Except ε α) := fun a b =>
  match a, b with
  | .ok x, .ok y =>
      if h : x = y then .isTrue (by rw [h]) else .isFalse (fun hh => h (Except.ok.inj hh))
  | .error x, .error y =>
      if h : x = y then .isTrue (by rw [h]) else .isFalse (fun hh => h (Except.error.inj hh))
  | .ok _, .error _ => .isFalse (fun hh => Except.noConfusion hh)
  | .error _, .ok _ => .isFalse (fun hh => Except.noConfusion hh)

theorem jsOrS_pos (a b : Option String) (h : jsTruthyS a = true) : jsOrS a b = a := by
  simp [jsOrS, h]

theorem jsOrS_neg (a b : Option String) (h : jsTruthyS a = false) : jsOrS a b = b := by
  simp [jsOrS, h]

/-- ASCII lowercasing of a string, character by character (the model of
JavaScript `toLowerCase` and of the case folding ILIKE performs). -/
def strLower (s : String) : String :=
  String.mk (s.data.map Char.toLower)

/-- Case-insensitive match of a stored nullable column against a pattern —
Supabase `.ilike(col, pat)` with a wildcard-free pattern. A NULL column never
matches. -/
def ilikeOpt (stored : Option String) (pat : String) : Bool :=
  match stored with
  | some s => strLower s == strLower pat
  | none => false

/-- Error taxonomy. Modelled from the spec: the `ApiError` class
(`src/errors/errors.js`) is not under `src/`; its static constructors, used
throughout the routes and services, carry a kind and a message, and the error
handler maps the kind to the HTTP status (400/401/403/404/410/500, spec §7). -/
inductive ApiError where
  | badRequest (msg : String)
  | unauthorized (msg : String)
  | forbidden (msg : String)
  | notFound (msg : String)
  | gone (msg : String)
  | internal (msg : String)
deriving DecidableEq, Repr

/-- User row, after `users` table plus the verification columns that
registration inserts (`is_verified`, `email_verification_token`,
`email_verification_expires`). -/
structure User where
  id : String
  tenant_id : String
  application_id : String
  email : Option String
  username : Option String
  password_hash : String
  first_name : String
  last_name : String
  status : String
  is_verified : Bool
  email_verification_token : Option String
  email_verification_expires : Option Nat
  last_login_at : Option Nat
  created_at : Nat
  updated_at : Nat
  deleted_at : Option Nat
deriving DecidableEq, Repr

/-- API-key row, after the `api_keys` table. -/
structure ApiKeyRecord where
  id : String
  name : String
  key : String
  application_id : Option String
  tenant_id : Option String
  status : String
  expires_at : Option Nat
  last_used_at : Option Nat
  created_at : Nat
  updated_at : Nat
  deleted_at : Option Nat
deriving DecidableEq, Repr

/-- JWT payload built by `generateToken` in `src/utils/jwt.js`: exactly the
fields id, email, username, tenant_id, application_id. -/
structure TokenClaims where
  id : String
  email : Option String
  username : Option String
  tenant_id : String
  application_id : String
deriving DecidableEq, Repr

/-- Symbolic JWT: a correctly signed token carries its claims, its `exp` time
and the secret it was signed with; anything else (wrong encoding, truncated
string, tampered payload) is `malformed`. -/
inductive Jwt where
  | signed (claims : TokenClaims) (exp : Nat) (secret : String)
  | malformed (s : String)
deriving DecidableEq, Repr

/-- Authorization header value, classified by its scheme, the classification
the code performs with `startsWith` checks: `apiKeyScheme k` stands for the
literal string `ApiKey k`, `bearer t` for `Bearer` followed by a serialized
token, `other s` for any value with neither scheme. -/
inductive AuthHeader where
  | apiKeyScheme (k : String)
  | bearer (t : Jwt)
  | other (s : String)
deriving DecidableEq, Repr

/-- Inbound request surface the API-key middleware inspects. `x_api_key` is
the `X-API-Key` header (Express exposes header names lowercased, so the
source's two reads of it yield the same value). -/
structure Request where
  x_api_key : Option String
  api_key_query : Option String
  authorization : Option AuthHeader
deriving DecidableEq, Repr

/-- Request-scoped context the API-key middleware writes (`req.tenant_id`,
`req.application_id`, `req.apiKey`). All fields are absent before the
middleware runs. -/
structure AuthCtx where
  tenant_id : Option String
  application_id : Option String
  apiKey : Option ApiKeyRecord
deriving DecidableEq, Repr

/-! ### JSON objects and sanitization

JS object destructuring `const \x7b a, b, ...rest \x7d = o` is modelled as
dropping keys from an association list, so the response-shape theorems really
are about which keys the handlers emit. -/

/-- JSON-ish value. Field contents are irrelevant to the sanitization claims. -/
inductive JVal where
  | s (v : String)
  | b (v : Bool)
  | num (v : Nat)
  | null
deriving DecidableEq, Repr

/-- A JavaScript object as an ordered association list. -/
abbrev Obj := List (String × JVal)

/-- Nullable string column as a JSON value. -/
def optS (o : Option String) : JVal :=
  match o with
  | some v => .s v
  | none => .null

/-- Nullable timestamp column as a JSON value. -/
def optN (o : Option Nat) : JVal :=
  match o with
  | some v => .num v
  | none => .null

/-- The user row as the JS object that `select('*')` returns. -/
def User.toObj (u : User) : Obj :=
  [ ("id", .s u.id)
  , ("tenant_id", .s u.tenant_id)
  , ("application_id", .s u.application_id)
  , ("email", optS u.email)
  , ("username", optS u.username)
  , ("password_hash", .s u.password_hash)
  , ("first_name", .s u.first_name)
  , ("last_name", .s u.last_name)
  , ("status", .s u.status)
  , ("is_verified", .b u.is_verified)
  , ("email_verification_token", optS u.email_verification_token)
  , ("email_verification_expires", optN u.email_verification_expires)
  , ("last_login_at", optN u.last_login_at)
  , ("created_at", .num u.created_at)
  , ("updated_at", .num u.updated_at)
  , ("deleted_at", optN u.deleted_at) ]

/-- Rest-destructuring: the object without the listed keys. -/
def omitKeys (ks : List String) (o : Obj) : Obj :=
  o.filter (fun p => !(ks.contains p.1))

/-- The keys of an object. -/
def objKeys (o : Obj) : List String :=
  o.map Prod.fst

/-! ### Bcrypt model

`bcrypt.hash(p, 10)` embeds a per-call salt; `bcrypt.compare` re-hashes with
the salt recovered from the stored digest. The claims only depend on compare
outcomes, which the model makes executable. -/

/-- Splitting a character list at dollar signs (structural stand-in for
`splitOn` over the digest format). -/
def splitDollar : List Char → List (List Char)
  | [] => [[]]
  | c :: rest =>
      let r := splitDollar rest
      if c = '$' then [] :: r
      else
        match r with
        | [] => [[c]]
        | h :: t => (c :: h) :: t

/-- Decimal value of a digit list (used to recover the salt from a digest). -/
def digitsToNat : List Char → Nat → Nat
  | [], acc => acc
  | c :: rest, acc => digitsToNat rest (acc * 10 + (c.toNat - 48))

/-- Digest of `password` under a given salt. -/
def bcryptHash (password : String) (salt : Nat) : String :=
  "$2b$10$" ++ toString salt ++ "$" ++ password

/-- Compare a password against a stored digest by re-hashing with the digest's
salt, as `bcrypt.compare` does. -/
def bcryptCompare (password hash : String) : Bool :=
  hash == bcryptHash password (digitsToNat ((splitDollar hash.data).getD 3 []) 0)

/-! ### JWT utility (`src/utils/jwt.js`) -/

/-- `generateToken(user)`: signs the payload built from the user's id, email,
username, tenant_id and application_id, with expiry `now + ttl`. -/
def generateToken (u : User) (secret : String) (now ttl : Nat) : Jwt :=
  .signed
    { id := u.id
    , email := u.email
    , username := u.username
    , tenant_id := u.tenant_id
    , application_id := u.application_id }
    (now + ttl) secret

/-- `verifyToken(token)`: succeeds exactly on a well-formed token signed with
the server secret whose expiry lies in the future; every failure — malformed
encoding, wrong signature, elapsed expiry — throws the one message
`Invalid or expired token`. -/
def verifyToken (t : Jwt) (secret : String) (now : Nat) : Except String TokenClaims :=
  match t with
  | .signed c exp s =>
      if s = secret ∧ now < exp then .ok c
      else .error "Invalid or expired token"
  | .malformed _ => .error "Invalid or expired token"

/-! ### Base service (`src/services/base.js`) -/

/-- `BaseService.getById`: `.eq('id', id).single()` — note the query has no
`deleted_at` filter, so soft-deleted rows are returned. -/
def baseGetById (db : List User) (id : String) : Except ApiError User :=
  match db.find? (fun u => u.id == id) with
  | some u => .ok u
  | none => .error (.notFound ("users record with ID " ++ id ++ " not found"))

/-- The per-row effect of an update statement keyed on `id`: rows with that id
get the changed columns `f` plus `updated_at := now`; other rows are kept. -/
def applyRowUpdate (id : String) (f : User → User) (now : Nat) (u : User) : User :=
  if u.id == id then { f u with updated_at := now } else u

/-- `BaseService.update`: first `getById`, then write the changed columns plus
`updated_at := now` to every row with that id, then return the updated row. -/
def baseUpdate (db : List User) (id : String) (f : User → User) (now : Nat) :
    Except ApiError (User × List User) :=
  match baseGetById db id with
  | .error e => .error e
  | .ok _ =>
      let db' := db.map (applyRowUpdate id f now)
      match db'.find? (fun u => u.id == id) with
      | some u => .ok (u, db')
      | none => .error (.internal "Failed to update users record")

/-! ### Users service (`src/services/users.js`) -/

/-- The object the register route passes to `usersService.create`. -/
structure NewUserData where
  email : Option String
  username : Option String
  password : String
  first_name : String
  last_name : String
  status : Option String
  tenant_id : String
  application_id : String
  is_verified : Bool
  email_verification_token : String
  email_verification_expires : Nat
deriving DecidableEq, Repr

/-- `UsersService.create`: requires a truthy password; pre-checks email and
username uniqueness case-insensitively against all non-soft-deleted rows (no
tenant or application filter in the queries); hashes the password with a fresh
salt; inserts the row. `newId`, `salt` and `now` are the store-generated id,
the bcrypt salt and the clock. -/
def usersCreate (db : List User) (d : NewUserData) (newId : String) (salt now : Nat) :
    Except ApiError (User × List User) :=
  if d.password == "" then .error (.badRequest "Password is required")
  else if jsTruthyS d.email
      && db.any (fun u => u.deleted_at == none && ilikeOpt u.email (d.email.getD "")) then
    .error (.badRequest "Email already exists")
  else if jsTruthyS d.username
      && db.any (fun u => u.deleted_at == none && ilikeOpt u.username (d.username.getD "")) then
    .error (.badRequest "Username already exists")
  else
    let newUser : User :=
      { id := newId
      , tenant_id := d.tenant_id
      , application_id := d.application_id
      , email := d.email
      , username := d.username
      , password_hash := bcryptHash d.password salt
      , first_name := d.first_name
      , last_name := d.last_name
      , status := d.status.getD "active"
      , is_verified := d.is_verified
      , email_verification_token := some d.email_verification_token
      , email_verification_expires := some d.email_verification_expires
      , last_login_at := none
      , created_at := now
      , updated_at := now
      , deleted_at := none }
    .ok (newUser, db ++ [newUser])

/-- `UsersService.findByEmailOrUsernameAndTenant`: null on a falsy identifier
or tenant; otherwise the first non-deleted row of the tenant whose email or
username matches the identifier case-insensitively. -/
def findByEmailOrUsernameAndTenant (db : List User) (identifier tenantId : String) :
    Option User :=
  if identifier == "" || tenantId == "" then none
  else
    db.find? (fun u =>
      u.tenant_id == tenantId && u.deleted_at == none
        && (ilikeOpt u.email identifier || ilikeOpt u.username identifier))

/-- `UsersService.updateLastLogin`: `update(id, \x7b last_login_at: now \x7d)`;
the update data has no email, username or password, so the service-level
uniqueness checks and hashing are skipped. -/
def updateLastLoginDb (db : List User) (id : String) (now : Nat) :
    Except ApiError (User × List User) :=
  baseUpdate db id (fun u => { u with last_login_at := some now }) now

/-- `UsersService.update` called with only a `password` field (the
change-password route): hashes the new password with a fresh salt and writes
`password_hash`. -/
def updatePasswordDb (db : List User) (id : String) (newPassword : String) (salt now : Nat) :
    Except ApiError (User × List User) :=
  baseUpdate db id (fun u => { u with password_hash := bcryptHash newPassword salt }) now

/-- Modelled from the spec: `UsersService.findByVerificationToken` is called by
the verify-email route but is not under `src/`; spec §4.4 `consume`: "looks up
user by exact token match". -/
def findByVerificationToken (db : List User) (token : String) : Option User :=
  db.find? (fun u => u.email_verification_token == some token)

/-- Modelled from the spec: `UsersService.verifyEmail` is called by the
verify-email route but is not under `src/`; spec §4.4 `consume`: "sets
`is_verified = true` ... persists, returns" the user (the implementation may
retain the stale token, guarded by the already-verified check). -/
def verifyEmailDb (db : List User) (id : String) (now : Nat) :
    Except ApiError (User × List User) :=
  baseUpdate db id (fun u => { u with is_verified := true }) now

/-! ### API-key middleware (`src/middleware/apiKey.js`) -/

/-- Candidate-key extraction: `x-api-key || X-API-Key || api_key` query, then
overridden by `Authorization: ApiKey k` whenever that scheme is present
(the code reassigns `apiKey` after computing the header/query candidate). The
capitalized header read is always `undefined` under Express. -/
def extractApiKey (r : Request) : Option String :=
  let k0 := jsOrS (jsOrS r.x_api_key none) r.api_key_query
  match r.authorization with
  | some (.apiKeyScheme k) => some k
  | _ => k0

/-- `validateApiKey` middleware: extract a candidate key, look it up among
non-deleted rows, reject inactive or expired keys; on success attach the
record and, when truthy, its `tenant_id` to the request context (the
middleware never writes `req.application_id`), and stamp `last_used_at`. -/
def validateApiKey (keys : List ApiKeyRecord) (now : Nat) (r : Request) :
    Except ApiError (AuthCtx × List ApiKeyRecord) :=
  let cand := extractApiKey r
  if !(jsTruthyS cand) then
    .error (.unauthorized "API key is required. Provide it via X-API-Key header, Authorization: ApiKey <key> header, or api_key query parameter")
  else
    let k := cand.getD ""
    match keys.find? (fun rec => rec.key == k && rec.deleted_at == none) with
    | none => .error (.unauthorized "Invalid API key")
    | some rec =>
        if rec.status != "active" then .error (.unauthorized "API key is not active")
        else if (match rec.expires_at with | some e => decide (e < now) | none => false) then
          .error (.unauthorized "API key has expired")
        else
          let ctx : AuthCtx :=
            { tenant_id := if jsTruthyS rec.tenant_id then rec.tenant_id else none
            , application_id := none
            , apiKey := some rec }
          let keys' := keys.map (fun x =>
            if x.id == rec.id then { x with last_used_at := some now, updated_at := now } else x)
          .ok (ctx, keys')

/-! ### Session middleware (`src/middleware/authenticate.js`) -/

/-- Outcome of the `authenticate` middleware: pass through untouched, attach
the decoded token payload to `req.user`, or reject. -/
inductive AuthnOutcome where
  | skipped
  | attached (claims : TokenClaims)
  | rejected (e : ApiError)
deriving DecidableEq, Repr

/-- `authenticate` middleware: skips `/api/auth` paths except `/api/auth/me`;
otherwise demands a Bearer header, verifies the token, and attaches the
decoded payload — it performs no user lookup. -/
def authenticate (path : String) (auth : Option AuthHeader) (secret : String) (now : Nat) :
    AuthnOutcome :=
  if strStartsWith path "/api/auth" && path != "/api/auth/me" then .skipped
  else
    match auth with
    | some (.bearer t) =>
        match verifyToken t secret now with
        | .ok c => .attached c
        | .error _ => .rejected (.unauthorized "Invalid or expired token")
    | _ => .rejected (.unauthorized "Authorization header with Bearer token is required")

/-! ### Route handlers (`src/routes/authentication.js`)

Each handler returns its response `data` object (or the thrown `ApiError`)
together with the resulting users table; a thrown error leaves the table as it
was, which is faithful because every store write in these handlers happens
after the last throw site. -/

/-- Response data of `POST /auth/register`: the created row minus
`password_hash` and `email_verification_token`. -/
def registerResponseData (u : User) : Obj :=
  omitKeys ["password_hash", "email_verification_token"] u.toObj

/-- Response data of `POST /auth/login`: the user row minus `password_hash`,
`created_at`, `updated_at` and `deleted_at` (and nothing else). -/
def loginResponseData (u : User) : Obj :=
  omitKeys ["password_hash", "created_at", "updated_at", "deleted_at"] u.toObj

/-- Response data of `GET /auth/me`: the fresh row minus `password_hash`. -/
def meResponseData (u : User) : Obj :=
  omitKeys ["password_hash"] u.toObj

/-- Response data of `POST /auth/change-password`: the updated row minus
`password_hash`. -/
def changePasswordResponseData (u : User) : Obj :=
  omitKeys ["password_hash"] u.toObj

/-- Response data of `POST /auth/verify-email`: the verified row minus
`password_hash` and `email_verification_token`. -/
def verifyEmailResponseData (u : User) : Obj :=
  omitKeys ["password_hash", "email_verification_token"] u.toObj

/-- Validated body of `POST /auth/register`. -/
structure RegisterBody where
  email : Option String
  username : Option String
  password : String
  first_name : String
  last_name : String
  status : Option String
deriving DecidableEq, Repr

/-- Validated body of `POST /auth/login`. -/
structure LoginBody where
  identifier : String
  password : String
deriving DecidableEq, Repr

/-- Validated body of `POST /auth/change-password`. -/
structure ChangePasswordBody where
  user_id : String
  current_password : String
  new_password : String
deriving DecidableEq, Repr

/-- `POST /auth/register`: requires `req.tenant_id` and `req.application_id`
from the API-key middleware; generates a verification token expiring 24 hours
from now; delegates to `usersCreate`; responds 201 with the sanitized user.
`evToken` is the random verification token, `newId` the store-generated id. -/
def registerHandler (db : List User) (ctx : AuthCtx) (body : RegisterBody)
    (newId evToken : String) (salt now : Nat) : Except ApiError Obj × List User :=
  if !(jsTruthyS ctx.tenant_id) then
    (.error (.badRequest "API key must be associated with a tenant"), db)
  else if !(jsTruthyS ctx.application_id) then
    (.error (.badRequest "API key must be associated with an application"), db)
  else
    let d : NewUserData :=
      { email := body.email
      , username := body.username
      , password := body.password
      , first_name := body.first_name
      , last_name := body.last_name
      , status := body.status
      , tenant_id := ctx.tenant_id.getD ""
      , application_id := ctx.application_id.getD ""
      , is_verified := false
      , email_verification_token := evToken
      , email_verification_expires := now + 24 * 60 * 60 }
    match usersCreate db d newId salt now with
    | .error e => (.error e, db)
    | .ok (newUser, db') => (.ok (registerResponseData newUser), db')

/-- `POST /auth/login`: requires `req.tenant_id`; looks the user up by
identifier and tenant; the missing-user and wrong-password branches throw the
same `Unauthorized` error; an unverified user is `Forbidden`; on success the
last-login timestamp is written, a token issued, and the pre-update row
returned sanitized. -/
def loginHandler (db : List User) (ctx : AuthCtx) (body : LoginBody) (secret : String)
    (now ttl : Nat) : Except ApiError (Obj × Jwt) × List User :=
  if !(jsTruthyS ctx.tenant_id) then
    (.error (.badRequest "API key must be associated with a tenant"), db)
  else
    match findByEmailOrUsernameAndTenant db body.identifier (ctx.tenant_id.getD "") with
    | none => (.error (.unauthorized "Invalid email/username, password, or tenant"), db)
    | some user =>
        if !(bcryptCompare body.password user.password_hash) then
          (.error (.unauthorized "Invalid email/username, password, or tenant"), db)
        else if !(user.is_verified) then
          (.error (.forbidden "Email address has not been verified"), db)
        else
          match updateLastLoginDb db user.id now with
          | .error e => (.error e, db)
          | .ok (_, db') =>
              (.ok (loginResponseData user, generateToken user secret now ttl), db')

/-- `GET /auth/me`: demands a Bearer header, verifies the token, re-fetches
the user by the token's id via `getById` (which does not filter soft-deleted
rows), and returns the row minus `password_hash` — with no status or
verification check. -/
def meHandler (db : List User) (auth : Option AuthHeader) (secret : String) (now : Nat) :
    Except ApiError Obj :=
  match auth with
  | some (.bearer t) =>
      match verifyToken t secret now with
      | .error _ => .error (.unauthorized "Invalid or expired token")
      | .ok c =>
          match baseGetById db c.id with
          | .error e => .error e
          | .ok u => .ok (meResponseData u)
  | _ => .error (.unauthorized "Authorization header with Bearer token is required")

/-- `POST /auth/change-password`: requires `req.tenant_id`; fetches the target
user; rejects a cross-tenant target with `Forbidden` and a wrong current
password with `Unauthorized`, in both cases before any write; otherwise
re-hashes and stores the new password. -/
def changePasswordHandler (db : List User) (ctx : AuthCtx) (body : ChangePasswordBody)
    (salt now : Nat) : Except ApiError Obj × List User :=
  if !(jsTruthyS ctx.tenant_id) then
    (.error (.badRequest "API key must be associated with a tenant"), db)
  else
    match baseGetById db body.user_id with
    | .error e => (.error e, db)
    | .ok user =>
        if user.tenant_id != ctx.tenant_id.getD "" then
          (.error (.forbidden "User does not belong to the tenant associated with the API key"), db)
        else if !(bcryptCompare body.current_password user.password_hash) then
          (.error (.unauthorized "Invalid current password"), db)
        else
          match updatePasswordDb db body.user_id body.new_password salt now with
          | .error e => (.error e, db)
          | .ok (updated, db') => (.ok (changePasswordResponseData updated), db')

/-- `POST /auth/verify-email`: requires a truthy token; finds the user by
exact token match; rejects an unknown token and an already-verified user with
`BadRequest`, a stored expiry strictly in the past with `Gone`; otherwise
flips `is_verified` and responds with the sanitized user. -/
def verifyEmailHandler (db : List User) (now : Nat) (token : Option String) :
    Except ApiError Obj × List User :=
  if !(jsTruthyS token) then
    (.error (.badRequest "Verification token is required"), db)
  else
    match findByVerificationToken db (token.getD "") with
    | none => (.error (.badRequest "Invalid verification token"), db)
    | some user =>
        if user.is_verified then
          (.error (.badRequest "Email is already verified"), db)
        else if (match user.email_verification_expires with
                 | some e => decide (e < now)
                 | none => false) then
          (.error (.gone "Verification token has expired"), db)
        else
          match verifyEmailDb db user.id now with
          | .error e => (.error e, db)
          | .ok (verified, db') => (.ok (verifyEmailResponseData verified), db')

/-! ### Shared lemmas and concrete records for witnesses -/

/-- Mapping a row transformation that does not change whether the search
predicate holds commutes with `find?` — the key fact about keyed updates of a
table. -/
theorem find?_map_invariant {α : Type} (f : α → α) (q : α → Bool)
    (h : ∀ v, q (f v) = q v) :
    ∀ l : List α, (l.map f).find? q = (l.find? q).map f := by
  intro l
  induction l with
  | nil => rfl
  | cons a t ih =>
      simp only [List.map_cons]
      by_cases hq : q a = true
      · rw [List.find?_cons_of_pos _ (by rw [h a]; exact hq),
          List.find?_cons_of_pos _ hq]
        rfl
      · have hq' : q a = false := by simpa using hq
        rw [List.find?_cons_of_neg _ (by rw [h a]; simp [hq']),
          List.find?_cons_of_neg _ (by simp [hq']), ih]

/-- A keyed row update keeps the id column, so searching the updated table by
id commutes with the update. -/
theorem find?_map_applyRowUpdate (db : List User) (id : String) (f : User → User) (now : Nat)
    (hf : ∀ v, (f v).id = v.id) :
    (db.map (applyRowUpdate id f now)).find? (fun v => v.id == id) =
      (db.find? (fun v => v.id == id)).map (applyRowUpdate id f now) := by
  apply find?_map_invariant
  intro v
  unfold applyRowUpdate
  by_cases hv : (v.id == id) = true
  · simp [hv, hf]
  · simp [hv]

/-- The keyed row update at a row that has the key. -/
theorem applyRowUpdate_self (id : String) (f : User → User) (now : Nat) (u : User)
    (h : (u.id == id) = true) :
    applyRowUpdate id f now u = { f u with updated_at := now } := by
  unfold applyRowUpdate
  simp [h]

/-- `baseUpdate` on a table whose first row with the id is `u`: it succeeds,
returns `u` with the changed columns and the fresh `updated_at`, and maps the
keyed row update over the table. -/
theorem baseUpdate_ok (db : List User) (id : String) (f : User → User) (now : Nat) (u : User)
    (hf : ∀ v, (f v).id = v.id)
    (hu : db.find? (fun v => v.id == id) = some u) :
    baseUpdate db id f now =
      .ok ({ f u with updated_at := now }, db.map (applyRowUpdate id f now)) := by
  have hq : (u.id == id) = true := by
    have h := List.find?_some hu
    simpa using h
  simp [baseUpdate, baseGetById, hu, find?_map_applyRowUpdate db id f now hf,
    applyRowUpdate_self id f now u hq]

/-- A concrete active, verified user of tenant `t1`. -/
def sampleUser : User :=
  { id := "u1"
  , tenant_id := "t1"
  , application_id := "a1"
  , email := some "ann@example.com"
  , username := some "ann"
  , password_hash := bcryptHash "hunter2pass" 7
  , first_name := "Ann"
  , last_name := "Lee"
  , status := "active"
  , is_verified := true
  , email_verification_token := some "evtok1"
  , email_verification_expires := some 999999
  , last_login_at := some 50
  , created_at := 10
  , updated_at := 10
  , deleted_at := none }

/-- Request context for an API key of tenant `t1` (as the middleware leaves
it: no `application_id`). -/
def sampleCtx : AuthCtx :=
  { tenant_id := some "t1", application_id := none, apiKey := none }

/-! ### C9 — token round-trip and single failure kind -/

/-- C9: verifying the token produced by `generateToken u` before expiry
recovers exactly the identity fields id, email, username, tenant_id,
application_id of `u`; the payload never depends on the password hash; and an
elapsed TTL, a wrong secret, and a malformed token all fail with the one
`Invalid or expired token` error. -/
theorem C9_token_roundtrip (u : User) (secret s2 str : String) (now ttl t : Nat) :
    (t < now + ttl →
      verifyToken (generateToken u secret now ttl) secret t =
        .ok { id := u.id, email := u.email, username := u.username
            , tenant_id := u.tenant_id, application_id := u.application_id }) ∧
    (now + ttl ≤ t →
      verifyToken (generateToken u secret now ttl) secret t =
        .error "Invalid or expired token") ∧
    (s2 ≠ secret →
      verifyToken (generateToken u secret now ttl) s2 t =
        .error "Invalid or expired token") ∧
    verifyToken (.malformed str) secret t = .error "Invalid or expired token" ∧
    (∀ h, generateToken { u with password_hash := h } secret now ttl =
      generateToken u secret now ttl) := by
  refine ⟨?_, ?_, ?_, rfl, fun h => rfl⟩
  · intro hlt
    simp [verifyToken, generateToken, hlt]
  · intro hge
    simp [verifyToken, generateToken, Nat.not_lt.mpr hge]
  · intro hne
    simp [verifyToken, generateToken, Ne.symm hne]

/-- Witness for C9 at a concrete user, secret and clock. -/
theorem C9_witness :
    verifyToken (generateToken sampleUser "sec" 0 10) "sec" 5 =
      .ok { id := "u1", email := some "ann@example.com", username := some "ann"
          , tenant_id := "t1", application_id := "a1" } ∧
    verifyToken (generateToken sampleUser "sec" 0 10) "sec" 20 =
      .error "Invalid or expired token" ∧
    verifyToken (generateToken sampleUser "sec" 0 10) "oth" 5 =
      .error "Invalid or expired token" :=
  ⟨(C9_token_roundtrip sampleUser "sec" "oth" "g" 0 10 5).1 (by decide),
   (C9_token_roundtrip sampleUser "sec" "oth" "g" 0 10 20).2.1 (by decide),
   (C9_token_roundtrip sampleUser "sec" "oth" "g" 0 10 5).2.2.1 (by decide)⟩

/-! ### C5 — user-enumeration resistance at login -/

/-- C5: under one tenant, a login whose identifier matches no non-deleted user
and a login whose identifier matches a user but whose password is wrong
produce the identical outcome: the same `Unauthorized` error with the same
message. -/
theorem C5_login_indistinguishable (db : List User) (ctx : AuthCtx) (r1 r2 : LoginBody)
    (secret : String) (now ttl : Nat) (u : User)
    (htid : jsTruthyS ctx.tenant_id = true)
    (h1 : findByEmailOrUsernameAndTenant db r1.identifier (ctx.tenant_id.getD "") = none)
    (h2 : findByEmailOrUsernameAndTenant db r2.identifier (ctx.tenant_id.getD "") = some u)
    (hpw : bcryptCompare r2.password u.password_hash = false) :
    (loginHandler db ctx r1 secret now ttl).1 = (loginHandler db ctx r2 secret now ttl).1 ∧
    (loginHandler db ctx r1 secret now ttl).1 =
      .error (.unauthorized "Invalid email/username, password, or tenant") := by
  simp [loginHandler, htid, h1, h2, hpw]

/-- Witness for C5: a ghost identifier and a wrong password against the
sample user give the same response. -/
theorem C5_witness :
    (loginHandler [sampleUser] sampleCtx
        { identifier := "ghost@x.com", password := "whatever12" } "sec" 100 10).1 =
      (loginHandler [sampleUser] sampleCtx
        { identifier := "ann@example.com", password := "wrongpass1" } "sec" 100 10).1 :=
  (C5_login_indistinguishable [sampleUser] sampleCtx
    { identifier := "ghost@x.com", password := "whatever12" }
    { identifier := "ann@example.com", password := "wrongpass1" }
    "sec" 100 10 sampleUser (by decide) (by decide) (by decide) (by decide)).1

/-! ### C2 — response sanitization -/

/-- C2 counterexample: a successful login response still carries the
`email_verification_token` field, so the claim that every user-derived
response excludes it is false on the code. -/
theorem C2_counterexample :
    ((loginHandler [sampleUser] sampleCtx
        { identifier := "ann@example.com", password := "hunter2pass" } "sec" 100 10).1.toOption.map
      (fun p => (objKeys p.1).contains "email_verification_token")) = some true := by
  decide

/-- C2 amended: every user-derived response excludes `password_hash`; the
register and verify-email responses additionally exclude
`email_verification_token`; the login response additionally excludes
`created_at`, `updated_at` and `deleted_at`; but login, me and
change-password responses retain `email_verification_token`. The key lists
below characterize each response exactly. -/
theorem C2_sanitization (u : User) :
    objKeys (registerResponseData u) =
      [ "id", "tenant_id", "application_id", "email", "username", "first_name"
      , "last_name", "status", "is_verified", "email_verification_expires"
      , "last_login_at", "created_at", "updated_at", "deleted_at" ] ∧
    objKeys (loginResponseData u) =
      [ "id", "tenant_id", "application_id", "email", "username", "first_name"
      , "last_name", "status", "is_verified", "email_verification_token"
      , "email_verification_expires", "last_login_at" ] ∧
    objKeys (meResponseData u) =
      [ "id", "tenant_id", "application_id", "email", "username", "first_name"
      , "last_name", "status", "is_verified", "email_verification_token"
      , "email_verification_expires", "last_login_at", "created_at", "updated_at"
      , "deleted_at" ] ∧
    objKeys (changePasswordResponseData u) = objKeys (meResponseData u) ∧
    objKeys (verifyEmailResponseData u) = objKeys (registerResponseData u) :=
  ⟨rfl, rfl, rfl, rfl, rfl⟩

/-! ### C4 — API-key source precedence -/

/-- Request carrying both an `X-API-Key` header and an
`Authorization: ApiKey` header, with different keys. -/
def rBoth : Request :=
  { x_api_key := some "K1", api_key_query := none
  , authorization := some (.apiKeyScheme "K2") }

/-- Request carrying only an `X-API-Key` header. -/
def rXOnly : Request :=
  { x_api_key := some "K1", api_key_query := none, authorization := none }

/-- Active key record `K1` of tenant `T1`. -/
def keyRec1 : ApiKeyRecord :=
  { id := "k1", name := "one", key := "K1", application_id := some "a1"
  , tenant_id := some "T1", status := "active", expires_at := none
  , last_used_at := none, created_at := 0, updated_at := 0, deleted_at := none }

/-- Active key record `K2` of tenant `T2`. -/
def keyRec2 : ApiKeyRecord :=
  { id := "k2", name := "two", key := "K2", application_id := some "a2"
  , tenant_id := some "T2", status := "active", expires_at := none
  , last_used_at := none, created_at := 0, updated_at := 0, deleted_at := none }

/-- C4 counterexample: with both an `X-API-Key: K1` header and an
`Authorization: ApiKey K2` header present, the candidate is `K2` and the
record looked up is `K2`'s (tenant `T2`) — the Authorization scheme wins, not
the dedicated header as claimed. -/
theorem C4_counterexample :
    extractApiKey rBoth = some "K2" ∧
    ((validateApiKey [keyRec1, keyRec2] 0 rBoth).toOption.map
      (fun p => p.1.tenant_id)) = some (some "T2") := by
  decide

/-- C4 amended: the `Authorization: ApiKey` scheme takes precedence whenever
that header is present with that scheme; otherwise the `X-API-Key` header is
used when non-empty, else the `api_key` query parameter; a missing or empty
candidate fails `Unauthorized`. -/
theorem C4_key_precedence (r : Request) (k : String) (keys : List ApiKeyRecord) (now : Nat) :
    (r.authorization = some (.apiKeyScheme k) → extractApiKey r = some k) ∧
    ((∀ k2, r.authorization ≠ some (.apiKeyScheme k2)) →
      (jsTruthyS r.x_api_key = true → extractApiKey r = r.x_api_key) ∧
      (jsTruthyS r.x_api_key = false → extractApiKey r = r.api_key_query)) ∧
    (jsTruthyS (extractApiKey r) = false →
      validateApiKey keys now r =
        .error (.unauthorized "API key is required. Provide it via X-API-Key header, Authorization: ApiKey <key> header, or api_key query parameter")) := by
  refine ⟨?_, ?_, ?_⟩
  · intro h
    simp [extractApiKey, h]
  · intro hno
    have hpos : jsTruthyS r.x_api_key = true →
        jsOrS (jsOrS r.x_api_key none) r.api_key_query = r.x_api_key := by
      intro hx
      rw [jsOrS_pos _ _ hx, jsOrS_pos _ _ hx]
    have hneg : jsTruthyS r.x_api_key = false →
        jsOrS (jsOrS r.x_api_key none) r.api_key_query = r.api_key_query := by
      intro hx
      rw [jsOrS_neg _ _ hx, jsOrS_neg none _ rfl]
    constructor
    · intro hx
      cases hauth : r.authorization with
      | none => simpa [extractApiKey, hauth] using hpos hx
      | some a =>
          cases a with
          | apiKeyScheme k2 => exact absurd hauth (hno k2)
          | bearer t => simpa [extractApiKey, hauth] using hpos hx
          | other s => simpa [extractApiKey, hauth] using hpos hx
    · intro hx
      cases hauth : r.authorization with
      | none => simpa [extractApiKey, hauth] using hneg hx
      | some a =>
          cases a with
          | apiKeyScheme k2 => exact absurd hauth (hno k2)
          | bearer t => simpa [extractApiKey, hauth] using hneg hx
          | other s => simpa [extractApiKey, hauth] using hneg hx
  · intro h
    simp [validateApiKey, h]

/-- Witness for C4 at concrete requests: the scheme override and the
header fallback. -/
theorem C4_witness :
    extractApiKey rBoth = some "K2" ∧ extractApiKey rXOnly = some "K1" :=
  ⟨(C4_key_precedence rBoth "K2" [] 0).1 rfl,
   ((C4_key_precedence rXOnly "K1" [] 0).2.1 (fun k2 h => by cases h)).1 (by decide)⟩

/-! ### C3 — API-key scope attachment and register -/

/-- Active key of tenant `tenT` and application `appA`. -/
def goodKey : ApiKeyRecord :=
  { id := "k9", name := "main", key := "GOODKEY", application_id := some "appA"
  , tenant_id := some "tenT", status := "active", expires_at := none
  , last_used_at := none, created_at := 0, updated_at := 0, deleted_at := none }

/-- Request presenting `goodKey` via the dedicated header. -/
def rGood : Request :=
  { x_api_key := some "GOODKEY", api_key_query := none, authorization := none }

/-- A well-formed registration body. -/
def regBody : RegisterBody :=
  { email := some "new@x.com", username := some "newbie", password := "longpass99"
  , first_name := "New", last_name := "Bee", status := none }

/-- C3: the middleware accepts the key carrying both a tenant and an
application id, but attaches only `tenant_id` — `req.application_id` is never
written — so the register handler, which its own comment says receives both
from the middleware, rejects every registration with `BadRequest`. -/
theorem C3_register_scope_bug :
    ((validateApiKey [goodKey] 5 rGood).toOption.map
      (fun p => (p.1.tenant_id, p.1.application_id))) = some (some "tenT", none) ∧
    (match validateApiKey [goodKey] 5 rGood with
     | .ok (ctx, _) => (registerHandler [] ctx regBody "u9" "tok9" 3 5).1
     | .error e => .error e) =
      .error (.badRequest "API key must be associated with an application") := by
  decide

/-! ### C1 — session re-validation -/

/-- A suspended, unverified, soft-deleted variant of the sample user. -/
def deadUser : User :=
  { sampleUser with
    id := "u2", status := "suspended", is_verified := false, deleted_at := some 60 }

/-- C1 counterexample: a syntactically valid, correctly signed, unexpired
token for a suspended, unverified, soft-deleted user is served 200 by
`GET /auth/me` — not rejected with Forbidden or NotFound as claimed. -/
theorem C1_counterexample :
    meHandler [deadUser] (some (.bearer (generateToken deadUser "sec" 0 1000))) "sec" 100 =
      .ok (meResponseData deadUser) ∧
    deadUser.status ≠ "active" ∧ deadUser.is_verified = false ∧
    deadUser.deleted_at = some 60 := by
  decide

/-- C1 amended: `GET /auth/me` verifies the token and re-fetches the user by
the token's id; when a row with that id exists — whatever its status,
verification flag or `deleted_at` — it responds 200 with the sanitized row,
and it fails `NotFound` only when no row with that id exists at all; the
`authenticate` middleware attaches the verified token payload to the request
without consulting the user store. -/
theorem C1_session_revalidation (db : List User) (claims : TokenClaims) (exp : Nat)
    (secret : String) (now : Nat) (u : User) (path : String)
    (hnow : now < exp)
    (hskip : (strStartsWith path "/api/auth" && path != "/api/auth/me") = false) :
    (db.find? (fun v => v.id == claims.id) = some u →
      meHandler db (some (.bearer (.signed claims exp secret))) secret now =
        .ok (meResponseData u)) ∧
    (db.find? (fun v => v.id == claims.id) = none →
      meHandler db (some (.bearer (.signed claims exp secret))) secret now =
        .error (.notFound ("users record with ID " ++ claims.id ++ " not found"))) ∧
    authenticate path (some (.bearer (.signed claims exp secret))) secret now =
      .attached claims := by
  have hver : verifyToken (.signed claims exp secret) secret now = .ok claims := by
    simp [verifyToken, hnow]
  refine ⟨?_, ?_, ?_⟩
  · intro hfind
    simp only [meHandler, hver, baseGetById, hfind]
  · intro hfind
    simp only [meHandler, hver, baseGetById, hfind]
  · simp only [authenticate, hskip, Bool.false_eq_true, if_false, hver]

/-- Witness for C1 at a concrete store, token and path. -/
theorem C1_witness :
    meHandler [sampleUser]
      (some (.bearer (.signed
        { id := "u1", email := some "ann@example.com", username := some "ann"
        , tenant_id := "t1", application_id := "a1" } 1000 "sec"))) "sec" 100 =
      .ok (meResponseData sampleUser) :=
  (C1_session_revalidation [sampleUser]
    { id := "u1", email := some "ann@example.com", username := some "ann"
    , tenant_id := "t1", application_id := "a1" } 1000 "sec" 100 sampleUser "/api/users"
    (by decide) (by decide)).1 (by decide)

/-! ### C6 — login verification gating and last-login update -/

/-- C6: a correct login for an unverified user fails `Forbidden`; the same
login once the user is verified succeeds, returns a freshly issued token, and
stores a `last_login_at` later than its previous value. -/
theorem C6_login_verification_gate (db₁ db₂ : List User) (ctx : AuthCtx) (body : LoginBody)
    (secret : String) (now ttl t₀ : Nat) (u₁ u₂ : User)
    (htid : jsTruthyS ctx.tenant_id = true)
    (h1 : findByEmailOrUsernameAndTenant db₁ body.identifier (ctx.tenant_id.getD "") = some u₁)
    (hpw1 : bcryptCompare body.password u₁.password_hash = true)
    (hver1 : u₁.is_verified = false)
    (h2 : findByEmailOrUsernameAndTenant db₂ body.identifier (ctx.tenant_id.getD "") = some u₂)
    (hpw2 : bcryptCompare body.password u₂.password_hash = true)
    (hver2 : u₂.is_verified = true)
    (hid : db₂.find? (fun v => v.id == u₂.id) = some u₂)
    (hlast : u₂.last_login_at = some t₀)
    (hmono : t₀ < now) :
    loginHandler db₁ ctx body secret now ttl =
      (.error (.forbidden "Email address has not been verified"), db₁) ∧
    (loginHandler db₂ ctx body secret now ttl).1 =
      .ok (loginResponseData u₂, generateToken u₂ secret now ttl) ∧
    ((loginHandler db₂ ctx body secret now ttl).2.find?
        (fun v => v.id == u₂.id)).map User.last_login_at = some (some now) ∧
    t₀ < now := by
  have hidtrue : (u₂.id == u₂.id) = true := by simp
  have hupd : updateLastLoginDb db₂ u₂.id now =
      .ok ({ u₂ with last_login_at := some now, updated_at := now },
        db₂.map (applyRowUpdate u₂.id (fun v => { v with last_login_at := some now }) now)) :=
    baseUpdate_ok db₂ u₂.id (fun v => { v with last_login_at := some now }) now u₂
      (fun v => rfl) hid
  refine ⟨?_, ?_, ?_, hmono⟩
  · simp [loginHandler, htid, h1, hpw1, hver1]
  · simp [loginHandler, htid, h2, hpw2, hver2, hupd]
  · simp only [loginHandler, htid, Bool.not_true, Bool.false_eq_true, if_false, h2, hpw2,
      hver2, Bool.not_false, hupd]
    rw [find?_map_applyRowUpdate db₂ u₂.id (fun v => { v with last_login_at := some now }) now
        (fun v => rfl), hid, Option.map_some',
      applyRowUpdate_self u₂.id (fun v => { v with last_login_at := some now }) now u₂ hidtrue]
    rfl

/-- The login request of the sample user with the correct password. -/
def loginBodyW : LoginBody :=
  { identifier := "ann@example.com", password := "hunter2pass" }

/-- Witness for C6: the sample user unverified then verified. -/
theorem C6_witness :
    loginHandler [{ sampleUser with is_verified := false }] sampleCtx loginBodyW "sec" 100 10 =
      (.error (.forbidden "Email address has not been verified"),
        [{ sampleUser with is_verified := false }]) ∧
    (loginHandler [sampleUser] sampleCtx loginBodyW "sec" 100 10).1 =
      .ok (loginResponseData sampleUser, generateToken sampleUser "sec" 100 10) :=
  ⟨(C6_login_verification_gate [{ sampleUser with is_verified := false }] [sampleUser]
      sampleCtx loginBodyW "sec" 100 10 50 { sampleUser with is_verified := false } sampleUser
      (by decide) (by decide) (by decide) (by decide) (by decide) (by decide) (by decide)
      (by decide) (by decide) (by decide)).1,
   (C6_login_verification_gate [{ sampleUser with is_verified := false }] [sampleUser]
      sampleCtx loginBodyW "sec" 100 10 50 { sampleUser with is_verified := false } sampleUser
      (by decide) (by decide) (by decide) (by decide) (by decide) (by decide) (by decide)
      (by decide) (by decide) (by decide)).2.1⟩

/-! ### C8 — change-password tenant and current-password gates -/

/-- C8: for an existing target user, a tenant mismatch with the API key fails
`Forbidden` and a wrong current password fails `Unauthorized`, both leaving
the stored table unchanged; when both checks pass the password is re-hashed
and stored. -/
theorem C8_change_password (db : List User) (ctx : AuthCtx) (body : ChangePasswordBody)
    (salt now : Nat) (u : User)
    (htid : jsTruthyS ctx.tenant_id = true)
    (hu : db.find? (fun v => v.id == body.user_id) = some u) :
    (u.tenant_id ≠ ctx.tenant_id.getD "" →
      changePasswordHandler db ctx body salt now =
        (.error (.forbidden "User does not belong to the tenant associated with the API key"),
          db)) ∧
    (u.tenant_id = ctx.tenant_id.getD "" →
      bcryptCompare body.current_password u.password_hash = false →
      changePasswordHandler db ctx body salt now =
        (.error (.unauthorized "Invalid current password"), db)) ∧
    (u.tenant_id = ctx.tenant_id.getD "" →
      bcryptCompare body.current_password u.password_hash = true →
      (changePasswordHandler db ctx body salt now).1 =
        .ok (changePasswordResponseData
          { u with password_hash := bcryptHash body.new_password salt, updated_at := now }) ∧
      ((changePasswordHandler db ctx body salt now).2.find?
          (fun v => v.id == body.user_id)).map User.password_hash =
        some (bcryptHash body.new_password salt)) := by
  have hq : (u.id == body.user_id) = true := by
    have h := List.find?_some hu
    simpa using h
  refine ⟨?_, ?_, ?_⟩
  · intro hten
    simp [changePasswordHandler, htid, baseGetById, hu, bne_iff_ne, hten]
  · intro hten hpw
    simp [changePasswordHandler, htid, baseGetById, hu, hten, hpw]
  · intro hten hpw
    have hupd : updatePasswordDb db body.user_id body.new_password salt now =
        .ok ({ u with password_hash := bcryptHash body.new_password salt, updated_at := now },
          db.map (applyRowUpdate body.user_id
            (fun v => { v with password_hash := bcryptHash body.new_password salt }) now)) :=
      baseUpdate_ok db body.user_id
        (fun v => { v with password_hash := bcryptHash body.new_password salt }) now u
        (fun v => rfl) hu
    constructor
    · simp [changePasswordHandler, htid, baseGetById, hu, hten, hpw, hupd]
    · simp only [changePasswordHandler, htid, Bool.not_true, Bool.false_eq_true, if_false,
        baseGetById, hu, hten, bne_self_eq_false, hpw, Bool.not_false, hupd]
      rw [find?_map_applyRowUpdate db body.user_id
          (fun v => { v with password_hash := bcryptHash body.new_password salt }) now
          (fun v => rfl), hu, Option.map_some',
        applyRowUpdate_self body.user_id
          (fun v => { v with password_hash := bcryptHash body.new_password salt }) now u hq]
      rfl

/-- Context of an API key bound to tenant `t2`. -/
def otherCtx : AuthCtx :=
  { tenant_id := some "t2", application_id := none, apiKey := none }

/-- Change-password request targeting the sample user with the correct
current password. -/
def cpBodyW : ChangePasswordBody :=
  { user_id := "u1", current_password := "hunter2pass", new_password := "newpass9999" }

/-- Witness for C8: a cross-tenant key is rejected; the right tenant and
current password update the stored hash. -/
theorem C8_witness :
    changePasswordHandler [sampleUser] otherCtx cpBodyW 3 100 =
      (.error (.forbidden "User does not belong to the tenant associated with the API key"),
        [sampleUser]) ∧
    (changePasswordHandler [sampleUser] sampleCtx cpBodyW 3 100).1 =
      .ok (changePasswordResponseData
        { sampleUser with password_hash := bcryptHash "newpass9999" 3, updated_at := 100 }) :=
  ⟨(C8_change_password [sampleUser] otherCtx cpBodyW 3 100 sampleUser
      (by decide) (by decide)).1 (by decide),
   ((C8_change_password [sampleUser] sampleCtx cpBodyW 3 100 sampleUser
      (by decide) (by decide)).2.2 (by decide) (by decide)).1⟩

/-! ### C7 — verify-email one-shot consumption -/

/-- C7: verify-email rejects an unknown token and an already-verified user
with `BadRequest`, a token past its stored expiry with `Gone`; otherwise it
flips `is_verified` once, responds without `password_hash` or the token, and
replaying the same token afterwards fails `BadRequest`. -/
theorem C7_verify_email_one_shot (db : List User) (now : Nat) (tk : String) (u : User)
    (htk : tk ≠ "") :
    (findByVerificationToken db tk = none →
      verifyEmailHandler db now (some tk) =
        (.error (.badRequest "Invalid verification token"), db)) ∧
    (findByVerificationToken db tk = some u → u.is_verified = true →
      verifyEmailHandler db now (some tk) =
        (.error (.badRequest "Email is already verified"), db)) ∧
    (findByVerificationToken db tk = some u → u.is_verified = false →
      ∀ e, u.email_verification_expires = some e → e < now →
        verifyEmailHandler db now (some tk) =
          (.error (.gone "Verification token has expired"), db)) ∧
    (findByVerificationToken db tk = some u → u.is_verified = false →
      (∀ e, u.email_verification_expires = some e → now ≤ e) →
      db.find? (fun v => v.id == u.id) = some u →
      verifyEmailHandler db now (some tk) =
        (.ok (verifyEmailResponseData { u with is_verified := true, updated_at := now }),
          db.map (applyRowUpdate u.id (fun v => { v with is_verified := true }) now)) ∧
      verifyEmailHandler
          (db.map (applyRowUpdate u.id (fun v => { v with is_verified := true }) now))
          now (some tk) =
        (.error (.badRequest "Email is already verified"),
          db.map (applyRowUpdate u.id (fun v => { v with is_verified := true }) now))) := by
  have hietk : tk.isEmpty = false := by
    cases he : tk.isEmpty with
    | false => rfl
    | true => exact absurd ((String.isEmpty_iff _).mp he) htk
  have htruthy : jsTruthyS (some tk) = true := by simp [jsTruthyS, hietk]
  refine ⟨?_, ?_, ?_, ?_⟩
  · intro hfind
    simp [verifyEmailHandler, htruthy, hfind]
  · intro hfind hver
    simp [verifyEmailHandler, htruthy, hfind, hver]
  · intro hfind hver e hexp hlt
    simp [verifyEmailHandler, htruthy, hfind, hver, hexp, hlt]
  · intro hfind hver hexp hid
    have hnexp : (match u.email_verification_expires with
        | some e => decide (e < now)
        | none => false) = false := by
      cases hex : u.email_verification_expires with
      | none => rfl
      | some e => simpa using Nat.not_lt.mpr (hexp e hex)
    have hq : (u.id == u.id) = true := by simp
    have hupd : verifyEmailDb db u.id now =
        .ok ({ u with is_verified := true, updated_at := now },
          db.map (applyRowUpdate u.id (fun v => { v with is_verified := true }) now)) :=
      baseUpdate_ok db u.id (fun v => { v with is_verified := true }) now u (fun v => rfl) hid
    have hfind' : findByVerificationToken
        (db.map (applyRowUpdate u.id (fun v => { v with is_verified := true }) now)) tk =
        some (applyRowUpdate u.id (fun v => { v with is_verified := true }) now u) := by
      unfold findByVerificationToken
      rw [find?_map_invariant (applyRowUpdate u.id (fun v => { v with is_verified := true }) now)
          (fun v => v.email_verification_token == some tk) ?_ db]
      · rw [findByVerificationToken] at hfind
        rw [hfind, Option.map_some']
      · intro v
        unfold applyRowUpdate
        by_cases hv : (v.id == u.id) = true
        · simp [hv]
        · simp [hv]
    constructor
    · simp [verifyEmailHandler, htruthy, hfind, hver, hnexp, hupd]
    · have hverified :
          (applyRowUpdate u.id (fun v => { v with is_verified := true }) now u).is_verified
            = true := by
        rw [applyRowUpdate_self u.id (fun v => { v with is_verified := true }) now u hq]
      simp [verifyEmailHandler, htruthy, hfind', hverified]

/-- A fresh, unverified user holding the pending token `tok77`. -/
def freshUser : User :=
  { sampleUser with
    id := "u3", is_verified := false, email_verification_token := some "tok77"
  , email_verification_expires := some 200 }

/-- Witness for C7: consuming `tok77` before expiry verifies the fresh user,
and replaying it is rejected. -/
theorem C7_witness :
    verifyEmailHandler [freshUser] 150 (some "tok77") =
      (.ok (verifyEmailResponseData { freshUser with is_verified := true, updated_at := 150 }),
        [{ freshUser with is_verified := true, updated_at := 150 }]) ∧
    verifyEmailHandler [{ freshUser with is_verified := true, updated_at := 150 }] 150
        (some "tok77") =
      (.error (.badRequest "Email is already verified"),
        [{ freshUser with is_verified := true, updated_at := 150 }]) :=
  (C7_verify_email_one_shot [freshUser] 150 "tok77" freshUser (by decide)).2.2.2
    (by decide) (by decide)
    (fun e he => by
      have h : (200 : Nat) = e := Option.some.inj he
      subst h
      decide)
    (by decide)

/-! ### C10 — global uniqueness pre-checks in user creation -/

/-- C10: the email and username pre-checks in `UsersService.create` consult
every non-deleted row regardless of tenant or application — creation fails
`BadRequest` on a case-insensitive match with a user of a different tenant
and application. -/
theorem C10_global_uniqueness (db : List User) (d : NewUserData) (newId : String)
    (salt now : Nat) (u : User)
    (hpw : d.password ≠ "")
    (hcross : ∀ v ∈ db, v.tenant_id ≠ d.tenant_id ∧ v.application_id ≠ d.application_id)
    (hu : u ∈ db) (hdel : u.deleted_at = none) :
    (∀ e eu, d.email = some e → e ≠ "" → u.email = some eu → strLower eu = strLower e →
      usersCreate db d newId salt now = .error (.badRequest "Email already exists")) ∧
    (db.any (fun v => v.deleted_at == none && ilikeOpt v.email (d.email.getD "")) = false →
      ∀ n nu, d.username = some n → n ≠ "" → u.username = some nu →
        strLower nu = strLower n →
        usersCreate db d newId salt now = .error (.badRequest "Username already exists")) := by
  have hpw' : (d.password == "") = false := by
    simpa using hpw
  constructor
  · intro e eu hde hne heu hlow
    have hieF : e.isEmpty = false := by
      cases he : e.isEmpty with
      | false => rfl
      | true => exact absurd ((String.isEmpty_iff _).mp he) hne
    have htruthy : jsTruthyS d.email = true := by
      rw [hde]
      simp [jsTruthyS, hieF]
    have hany : db.any (fun v => v.deleted_at == none && ilikeOpt v.email (d.email.getD ""))
        = true := by
      refine List.any_eq_true.mpr ⟨u, hu, ?_⟩
      rw [hde]
      simp [hdel, ilikeOpt, heu, hlow]
    simp [usersCreate, hpw', htruthy, hany]
  · intro hnoEmail n nu hdn hnne hun hlow
    have hieF : n.isEmpty = false := by
      cases he : n.isEmpty with
      | false => rfl
      | true => exact absurd ((String.isEmpty_iff _).mp he) hnne
    have htruthy : jsTruthyS d.username = true := by
      rw [hdn]
      simp [jsTruthyS, hieF]
    have hany : db.any (fun v => v.deleted_at == none && ilikeOpt v.username (d.username.getD ""))
        = true := by
      refine List.any_eq_true.mpr ⟨u, hu, ?_⟩
      rw [hdn]
      simp [hdel, ilikeOpt, hun, hlow]
    simp [usersCreate, hpw', hnoEmail, htruthy, hany]

/-- A registration for tenant `t9` / application `a9` reusing the sample
user's email in different case. -/
def crossTenantReg : NewUserData :=
  { email := some "ANN@EXAMPLE.COM", username := some "other", password := "longpass99"
  , first_name := "An", last_name := "Other", status := none, tenant_id := "t9"
  , application_id := "a9", is_verified := false, email_verification_token := "tk"
  , email_verification_expires := 5 }

/-- Witness for C10: the cross-tenant registration collides with the sample
user's email case-insensitively. -/
theorem C10_witness :
    usersCreate [sampleUser] crossTenantReg "u9" 3 100 =
      .error (.badRequest "Email already exists") :=
  (C10_global_uniqueness [sampleUser] crossTenantReg "u9" 3 100 sampleUser
    (by decide) (by decide) (by decide) (by decide)).1
    "ANN@EXAMPLE.COM" "ann@example.com" rfl (by decide) rfl (by decide)

end Sundrops
